import Mathlib

/-!
Verification of the SP2-Server data-access layer
(`src/shared/SpDatabaseWrapper.cpp`) against its specification.

The file shallowly embeds the parts of the wrapper the claims are about:

* the `MysqlValue` / `MysqlResult` accessors (null checks, bounds checks,
  column-name resolution, the auto-generated-id field),
* the `QueryException` error carrier and the per-operation catch sites,
* the query builders and the row-level semantics of the data-access
  operations `CreateUser`, `GetUserId`, `GetUserLoginInfo`, `GetIpBanInfo`,
  `CreateUserBan`, `CreateIpBan` and `GetUserPostLoginInfo`.

Conventions of the embedding:

* C++ exceptions become `Except DbError` (or explicit error values); the
  exception messages are kept verbatim.
* The C++ `(int)` narrowing applied to the 64-bit unsigned
  `mysql_insert_id` is modelled as reduction modulo `2 ^ 32` reinterpreted
  as signed (`toInt32`).
* A result cell is `Option α` (a `MYSQL_ROW` cell is a possibly-null C
  string); where an operation only reads integer-typed columns the cell
  payload is the parsed integer (`AsInt` of the decimal rendering the
  server produces, exact for the in-range values considered here).
* `INSERT INTO t SET c1 = v1, ...` statements are embedded as their ordered
  assignment lists over a small expression type, and `SELECT` statements as
  records of their projection list, table and `WHERE` filter, exactly as
  the query strings are concatenated in the source.
-/

namespace SpDb

/-- Exceptions raised inside the wrapper: `std::logic_error` and
`std::out_of_range` from the `MysqlResult` / `MysqlValue` layer, and
`std::runtime_error` from the query executor (carrying the MySQL error
text).  Messages are kept verbatim from the source. -/
inductive DbError where
  | logicError (msg : String)
  | outOfRange (msg : String)
  | runtimeError (msg : String)
  deriving DecidableEq, Repr

/-- `what()` of the exception object: each of the three C++ exception
classes returns the message it was constructed with. -/
def errorWhat : DbError → String
  | .logicError msg => msg
  | .outOfRange msg => msg
  | .runtimeError msg => msg

namespace MysqlValue

/-- `MysqlValue::IsNull`: the wrapped cell pointer is null. -/
def IsNull (v : Option α) : Bool := v.isNone

/-- `MysqlValue::AsString`: throws `logic_error` on a null cell, otherwise
the cell text verbatim. -/
def AsString (v : Option String) : Except DbError String :=
  match v with
  | none => .error (.logicError "A null MySQL value cannot be converted to string.")
  | some s => .ok s

/-- `MysqlValue::AsInt` (and `AsLongLongInt`): throws `logic_error` on a
null cell; on a non-null cell the source parses the decimal text, which for
the integer-typed columns read here is the stored integer itself. -/
def AsInt (v : Option Int) : Except DbError Int :=
  match v with
  | none => .error (.logicError "A null MySQL value cannot be converted to int.")
  | some n => .ok n

end MysqlValue

/-- The state of a `MysqlResult` object after construction: the null flag
of the `MYSQL_RES*`, the row and column counts (C++ `int`s, hence `Int`),
the field names, the materialised rows and the `autoGeneratedId` field.
The lazy `fetchedRows` memoisation of the source is collapsed: semantically
row `i` of the fully fetched set is `rows[i]`. -/
structure MysqlResult (α : Type) where
  isNull : Bool
  rowCount : Int
  columnCount : Int
  columnNames : List String
  rows : List (List (Option α))
  autoGeneratedId : Int

namespace MysqlResult

/-- `MysqlResult::GetRowCount`: throws on a null result, otherwise the
stored count. -/
def GetRowCount (r : MysqlResult α) : Except DbError Int :=
  if r.isNull then
    .error (.logicError "Cannot retrieve the row count because the result is null.")
  else .ok r.rowCount

/-- `MysqlResult::GetAutoGeneratedId`: returns the stored field with no
null check, so it never throws. -/
def GetAutoGeneratedId (r : MysqlResult α) : Int := r.autoGeneratedId

/-- `MysqlResult::FindColumnIndex`: null/empty checks, then the index of
the first column whose name matches, else
`logic_error("Column name not found.")`.  The source's first-call scan over
`mysql_fetch_fields` and its cached `std::find` path both return the index
of the first match over the same name list, so the cache is semantically
transparent and a single function suffices. -/
def FindColumnIndex (r : MysqlResult α) (columnName : String) : Except DbError Int :=
  if r.isNull then
    .error (.logicError "Cannot retrieve the name of a column because the result is null.")
  else if r.columnCount = 0 then
    .error (.logicError "Cannot retrieve the name of a column because there are no columns.")
  else
    match r.columnNames.findIdx? (fun n => n == columnName) with
    | some i => .ok (i : Int)
    | none => .error (.logicError "Column name not found.")

/-- `MysqlResult::GetValue(int rowIndex, int columnIndex)`: the checks in
source order, then the cell of the fetched row. -/
def GetValueAt (r : MysqlResult α) (rowIndex columnIndex : Int) : Except DbError (Option α) :=
  if r.isNull then
    .error (.logicError "Cannot retrieve a value because the result is null.")
  else if r.columnCount = 0 then
    .error (.outOfRange "Cannot retrieve a value because there are no columns.")
  else if r.rowCount = 0 then
    .error (.outOfRange "Cannot retrieve a value because there are no rows.")
  else if columnIndex < 0 then
    .error (.outOfRange "Column index cannot be negative.")
  else if rowIndex < 0 then
    .error (.outOfRange "Row index cannot be negative.")
  else if r.columnCount - 1 < columnIndex then
    .error (.outOfRange "Column index is out of range.")
  else if r.rowCount - 1 < rowIndex then
    .error (.outOfRange "Row index is out of range.")
  else
    .ok ((r.rows.getD rowIndex.toNat []).getD columnIndex.toNat none)

/-- `MysqlResult::GetValue(int columnIndex)`: delegates to
`GetValue(0, columnIndex)`. -/
def GetValueCol (r : MysqlResult α) (columnIndex : Int) : Except DbError (Option α) :=
  r.GetValueAt 0 columnIndex

/-- `MysqlResult::GetValue(const char* columnName)`: delegates to
`GetValue(FindColumnIndex(columnName))`. -/
def GetValueName (r : MysqlResult α) (columnName : String) : Except DbError (Option α) :=
  (r.FindColumnIndex columnName).bind (fun i => r.GetValueCol i)

/-- `MysqlResult::GetValue(int rowIndex, const char* columnName)`:
delegates to `GetValue(rowIndex, FindColumnIndex(columnName))`. -/
def GetValueAtName (r : MysqlResult α) (rowIndex : Int) (columnName : String) :
    Except DbError (Option α) :=
  (r.FindColumnIndex columnName).bind (fun i => r.GetValueAt rowIndex i)

/-- `MysqlResult::GetValue()`: delegates to `GetValue(0)`. -/
def GetValueFirst (r : MysqlResult α) : Except DbError (Option α) :=
  r.GetValueCol 0

end MysqlResult

/-- The C++ `(int)` cast applied to the `my_ulonglong` returned by
`mysql_insert_id`: reduce modulo `2 ^ 32` and reinterpret the 32 bits as a
signed value. -/
def toInt32 (u : Nat) : Int :=
  if u % 2 ^ 32 < 2 ^ 31 then ((u % 2 ^ 32 : Nat) : Int)
  else ((u % 2 ^ 32 : Nat) : Int) - 2 ^ 32

/-- A materialised result set as handed back by `mysql_store_result`; a
missing one (`none` below) models the null `MYSQL_RES*` produced by
statements with no result set, e.g. `INSERT`. -/
structure ResultSet (α : Type) where
  columnNames : List String
  rows : List (List (Option α))

/-- `MysqlResult::MysqlResult(MYSQL*, MYSQL_RES*)`: stores
`(int)mysql_insert_id` first in every case; when `res == 0` it returns
early leaving both counts at zero, otherwise it stores `mysql_num_rows`
and `mysql_num_fields`. -/
def mkMysqlResult (insertId : Nat) (res : Option (ResultSet α)) : MysqlResult α :=
  match res with
  | none =>
      { isNull := true, rowCount := 0, columnCount := 0, columnNames := [],
        rows := [], autoGeneratedId := toInt32 insertId }
  | some rs =>
      { isNull := false, rowCount := (rs.rows.length : Int),
        columnCount := (rs.columnNames.length : Int),
        columnNames := rs.columnNames, rows := rs.rows,
        autoGeneratedId := toInt32 insertId }

/-- A right-hand-side value expression of an `INSERT ... SET` assignment,
exactly the three shapes the wrapper concatenates into its query strings:
a bare integer, a quoted string, and `FROM_UNIXTIME(<t>)`. -/
inductive SqlExpr where
  | intLit (i : Int)
  | strLit (s : String)
  | fromUnixtime (t : Int)
  deriving DecidableEq, Repr

/-- The assignment list of an `INSERT INTO <table> SET c1 = v1, c2 = v2,
...` statement, in the order the query string is built. -/
abbrev InsertAssignments := List (String × SqlExpr)

/-- The value the statement assigns to column `col`, or `none` when the
statement does not mention the column (leaving it at its column
default). -/
def assignedValue (stmt : InsertAssignments) (col : String) : Option SqlExpr :=
  (stmt.find? (fun a => a.1 == col)).map (fun a => a.2)

/-- `SpDatabaseWrapperImpl::CreateUser` query construction.  Note the
source appends the `creation_ip` assignment under
`if (creationIp.empty())`, i.e. exactly when the supplied string is
empty. -/
def CreateUserStmt (name password : String) (isMale : Bool) (creationIp : String) :
    InsertAssignments :=
  [("name", .strLit name), ("password", .strLit password),
   ("is_male", .intLit (if isMale then 1 else 0))]
  ++ (if creationIp = "" then [("creation_ip", .strLit creationIp)] else [])

/-- `SpDatabaseWrapperImpl::CreateUserBan` query construction: always sets
`user_id`; appends `expiration_date = FROM_UNIXTIME(<t>)` only when the
argument differs from the sentinel `-1`. -/
def CreateUserBanStmt (userId : Int) (banExpirationDate : Int) : InsertAssignments :=
  [("user_id", .intLit userId)]
  ++ (if banExpirationDate ≠ -1 then
        [("expiration_date", .fromUnixtime banExpirationDate)]
      else [])

/-- `SpDatabaseWrapperImpl::CreateIpBan` query construction: always sets
`ip`; appends `expiration_date = FROM_UNIXTIME(<t>)` only when the
argument differs from the sentinel `-1`. -/
def CreateIpBanStmt (ip : String) (banExpirationDate : Int) : InsertAssignments :=
  [("ip", .strLit ip)]
  ++ (if banExpirationDate ≠ -1 then
        [("expiration_date", .fromUnixtime banExpirationDate)]
      else [])

/-- The `expiration_date` cell of the row such an insert produces, read
back as epoch seconds: an absent assignment leaves the nullable column at
its default NULL (`none`); `FROM_UNIXTIME(t)` stores the datetime whose
`UNIX_TIMESTAMP` is `t`. -/
def storedExpiration (stmt : InsertAssignments) : Option Int :=
  match assignedValue stmt "expiration_date" with
  | some (.fromUnixtime t) => some t
  | _ => none

/-- After an `INSERT`, `mysql_store_result` returns a null `MYSQL_RES*`;
`CreateUser`, `CreateUserBan` and `CreateIpBan` all read
`GetAutoGeneratedId()` from that null result and return it.  `insertId` is
the 64-bit id the server assigned to the inserted row. -/
def insertReturnedId (insertId : Nat) : Int :=
  (mkMysqlResult insertId (none : Option (ResultSet Int))).GetAutoGeneratedId

/-- A row of the `user` table as far as `GetUserId` reads it. -/
structure UserRow where
  id : Int
  name : String
  deriving DecidableEq, Repr

/-- The result set of `SELECT id FROM user WHERE name = '<userName>'`:
one single-cell row per user row whose `name` matches. -/
def selectUserIdResult (users : List UserRow) (userName : String) : MysqlResult Int :=
  mkMysqlResult 0 (some
    { columnNames := ["id"],
      rows := (users.filter (fun u => u.name == userName)).map (fun u => [some u.id]) })

/-- `SpDatabaseWrapperImpl::GetUserId`: executes the select, then
`if (res->GetRowCount() > 0) userId = res->GetValue().AsInt(); else
userId = 0;`. -/
def GetUserId (users : List UserRow) (userName : String) : Except DbError Int := do
  let res := selectUserIdResult users userName
  let n ← res.GetRowCount
  if n > 0 then
    let v ← res.GetValueFirst
    MysqlValue.AsInt v
  else
    pure 0

/-- A `SELECT <columns> FROM <table> WHERE <whereColumn> = <whereValue>`
statement as the wrapper concatenates it. -/
structure SelectStmt where
  columns : List String
  table : String
  whereColumn : String
  whereValue : Int
  deriving DecidableEq, Repr

/-- The first query of `SpDatabaseWrapperImpl::GetUserLoginInfo`:
`SELECT password, is_deleted FROM user WHERE id = <userId>`. -/
def GetUserLoginInfoQuery (userId : Int) : SelectStmt :=
  { columns := ["password", "is_deleted"], table := "user",
    whereColumn := "id", whereValue := userId }

/-- The query of `SpDatabaseWrapperImpl::GetUserPostLoginInfo`:
`SELECT is_male, auth, default_character, rank, rank_record, points, code
FROM user WHERE user_id = <userId>` — the filter column is spelled
`user_id` in the source. -/
def GetUserPostLoginInfoQuery (userId : Int) : SelectStmt :=
  { columns := ["is_male", "auth", "default_character", "rank", "rank_record",
                "points", "code"],
    table := "user", whereColumn := "user_id", whereValue := userId }

/-- The query of `SpDatabaseWrapperImpl::UpdateUserLastLoginDate` filters
the `user` table by `WHERE id = <userId>` (as do the other two `Update*`
operations), showing `id` is the key column used everywhere else. -/
def UpdateUserLastLoginDateWhereColumn : String := "id"

/-- The result set of the first `GetUserLoginInfo` query for a user row
with the given `password` and `is_deleted` values: columns in the order of
the select list, cells as the server's text rendering. -/
def selectLoginResult (password : String) (isDeleted : Bool) : MysqlResult String :=
  mkMysqlResult 0 (some
    { columnNames := ["password", "is_deleted"],
      rows := [[some password, some (if isDeleted then "1" else "0")]] })

/-- `res->GetValue(<columnName>).AsString()` as the operations compose
it. -/
def GetValueAsString (res : MysqlResult String) (columnName : String) :
    Except DbError String :=
  (res.GetValueName columnName).bind MysqlValue.AsString

/-- The password read of `SpDatabaseWrapperImpl::GetUserLoginInfo`: the
source line is `password = res->GetValue("user").AsString();` — it asks the
result for a column named `user`. -/
def getLoginPasswordHash (res : MysqlResult String) : Except DbError String :=
  GetValueAsString res "user"

/-- Descending insertion: place `x` in front of the first element it is
greater than or equal to. -/
def insertDesc (x : Int) : List Int → List Int
  | [] => [x]
  | y :: ys => if x ≥ y then x :: y :: ys else y :: insertDesc x ys

/-- `ORDER BY expiration_date_unix DESC` over the timed expirations. -/
def sortDesc : List Int → List Int
  | [] => []
  | x :: xs => insertDesc x (sortDesc xs)

/-- `UNION` duplicate elimination: keep the first occurrence of each
row. -/
def dedupFirstAux (seen : List (Option Int)) : List (Option Int) → List (Option Int)
  | [] => []
  | x :: xs =>
      if x ∈ seen then dedupFirstAux seen xs
      else x :: dedupFirstAux (x :: seen) xs

/-- `UNION` duplicate elimination starting from no seen rows. -/
def dedupKeepFirst (l : List (Option Int)) : List (Option Int) :=
  dedupFirstAux [] l

/-- The ban-resolution query shared verbatim (up to table and key) by
`GetUserLoginInfo` and `GetIpBanInfo`, evaluated over the expirations of
the ban rows matching the subject (`none` = `expiration_date IS NULL`):

`(SELECT NULL AS expiration_date_unix FROM <t> WHERE <match> AND
expiration_date IS NULL) UNION (SELECT UNIX_TIMESTAMP(expiration_date) AS
expiration_date_unix FROM <t> WHERE <match> AND expiration_date IS NOT
NULL ORDER BY expiration_date_unix DESC) LIMIT 1`

The first branch yields one NULL row per matching permanent ban, the
second the timed expirations in descending order; `UNION` removes
duplicate rows; `LIMIT 1` keeps the first remaining row. -/
def banQueryRows (rows : List (Option Int)) : List (Option Int) :=
  (dedupKeepFirst
    ((rows.filter (fun r => r.isNone)).map (fun _ => (none : Option Int))
      ++ (sortDesc (rows.filterMap id)).map some)).take 1

/-- The C++ around the ban query (identical in `GetUserLoginInfo` and
`GetIpBanInfo`): row count zero gives `0`; a NULL cell gives `-1`;
otherwise `AsInt` of the cell. -/
def resolveBan (rows : List (Option Int)) : Int :=
  match banQueryRows rows with
  | [] => 0
  | none :: _ => -1
  | some t :: _ => t

/-- A `userban` row: `user_id` and `UNIX_TIMESTAMP(expiration_date)`
(`none` for NULL). -/
structure UserBanRow where
  userId : Int
  expiration : Option Int
  deriving DecidableEq, Repr

/-- An `ipban` row: `ip` and `UNIX_TIMESTAMP(expiration_date)` (`none`
for NULL). -/
structure IpBanRow where
  ip : String
  expiration : Option Int
  deriving DecidableEq, Repr

/-- The `ban_expiration` computed by `GetUserLoginInfo`: the resolution
query over the `userban` rows with `user_id = userId`. -/
def GetUserLoginInfoBanExpiration (userban : List UserBanRow) (userId : Int) : Int :=
  resolveBan ((userban.filter (fun b => b.userId == userId)).map (fun b => b.expiration))

/-- `GetIpBanInfo`: the same resolution query over the `ipban` rows with
`ip = ip`. -/
def GetIpBanInfo (ipban : List IpBanRow) (ip : String) : Int :=
  resolveBan ((ipban.filter (fun b => b.ip == ip)).map (fun b => b.expiration))

/-- The maximum of a list of integers, `none` on the empty list. -/
def maxOf : List Int → Option Int
  | [] => none
  | x :: xs => some (match maxOf xs with | none => x | some m => max x m)

/-- Modelled from the spec's words (for comparison with `resolveBan`,
which is translated from the source): among the matching ban rows, `-1`
if any row has a NULL expiration; otherwise the largest expiration if any
rows exist; otherwise `0`. -/
def banResolutionSpec (rows : List (Option Int)) : Int :=
  if rows.any (fun r => r.isNone) then -1
  else
    match maxOf (rows.filterMap id) with
    | none => 0
    | some m => m

/-- The state of a `QueryException`: the offending statement text and the
description built by `Init`. -/
structure QueryException where
  query : String
  description : String
  deriving DecidableEq, Repr

/-- `QueryException::Init`: builds the description from the optional cause
and always appends the query text. -/
def QueryExceptionInit (query : String) (cause : Option String) : QueryException :=
  { query := query,
    description :=
      (match cause with
       | none => "An error occurred when processing a query."
       | some c => "An error occurred when processing a query: " ++ c)
      ++ " The query string was: " ++ query }

/-- `QueryException::what`: returns the stored description. -/
def QueryException.what (e : QueryException) : String := e.description

/-- `QueryException::GetQuery`: returns the stored query text. -/
def QueryException.GetQuery (e : QueryException) : String := e.query

/-- The message of the `runtime_error` the executor raises when submission
or materialisation fails, carrying the server's error text. -/
def executorErrorMessage (mysqlError : String) : String :=
  "An error occurred when storing a result from a MySQL query: " ++ mysqlError

/-- The catch site every data-access operation wraps its body in:
`catch (exception ex) { throw QueryException(query, ex.what()); }`.
The clause catches by value; on the MSVC toolchain this Windows-only
source targets, `std::exception` stores its message in the base object, so
the sliced copy's `what()` is still the thrown exception's message. -/
def surfaceFailure (query : String) (ex : DbError) : QueryException :=
  QueryExceptionInit query (some (errorWhat ex))

/-! ## Helper lemmas -/

theorem head?_dedupKeepFirst (l : List (Option Int)) :
    (dedupKeepFirst l).head? = l.head? := by
  cases l with
  | nil => rfl
  | cons x xs => simp [dedupKeepFirst, dedupFirstAux]

theorem head?_insertDesc (x : Int) (l : List Int) :
    (insertDesc x l).head?
      = some (match l.head? with | none => x | some y => max x y) := by
  cases l with
  | nil => rfl
  | cons y ys =>
    simp only [insertDesc]
    split
    · next h => simp [max_eq_left h]
    · next h => simp [max_eq_right (le_of_not_le h)]

theorem head?_sortDesc (l : List Int) : (sortDesc l).head? = maxOf l := by
  induction l with
  | nil => rfl
  | cons x xs ih => simp only [sortDesc, maxOf, head?_insertDesc, ih]

theorem resolveBan_head (rows : List (Option Int)) :
    resolveBan rows =
      (match ((rows.filter (fun r => r.isNone)).map (fun _ => (none : Option Int))
              ++ (sortDesc (rows.filterMap id)).map some).head? with
       | none => 0
       | some none => -1
       | some (some t) => t) := by
  unfold resolveBan banQueryRows
  rw [← head?_dedupKeepFirst]
  cases dedupKeepFirst ((rows.filter (fun r => r.isNone)).map (fun _ => (none : Option Int))
      ++ (sortDesc (rows.filterMap id)).map some) with
  | nil => rfl
  | cons h t => cases h <;> rfl

theorem resolveBan_eq_spec (rows : List (Option Int)) :
    resolveBan rows = banResolutionSpec rows := by
  rw [resolveBan_head]
  by_cases h : rows.any (fun r => r.isNone) = true
  · obtain ⟨z, hz, hzn⟩ := List.any_eq_true.mp h
    cases hF : rows.filter (fun r => r.isNone) with
    | nil =>
      have := (List.filter_eq_nil_iff.mp hF) z hz
      simp [hzn] at this
    | cons w ws => simp [banResolutionSpec, h, hF]
  · have hF : rows.filter (fun r => r.isNone) = [] := by
      rw [List.filter_eq_nil_iff]
      intro a ha hna
      exact h (List.any_eq_true.mpr ⟨a, ha, hna⟩)
    cases hm : maxOf (rows.filterMap id) with
    | none => simp [banResolutionSpec, h, hF, head?_sortDesc, hm]
    | some m => simp [banResolutionSpec, h, hF, head?_sortDesc, hm]

theorem any_perm {l₁ l₂ : List (Option Int)} (p : Option Int → Bool) (h : l₁.Perm l₂) :
    l₁.any p = l₂.any p := by
  induction h with
  | nil => rfl
  | cons x h ih => simp only [List.any_cons, ih]
  | swap x y l =>
    simp only [List.any_cons]
    cases hx : p x <;> cases hy : p y <;> simp
  | trans h₁ h₂ ih₁ ih₂ => exact ih₁.trans ih₂

theorem maxOf_perm {l₁ l₂ : List Int} (h : l₁.Perm l₂) : maxOf l₁ = maxOf l₂ := by
  induction h with
  | nil => rfl
  | cons x h ih => simp only [maxOf, ih]
  | swap x y l =>
    simp only [maxOf]
    cases hm : maxOf l with
    | none => simp [max_comm]
    | some m => simp [max_left_comm]
  | trans h₁ h₂ ih₁ ih₂ => exact ih₁.trans ih₂

theorem banResolutionSpec_perm {l₁ l₂ : List (Option Int)} (h : l₁.Perm l₂) :
    banResolutionSpec l₁ = banResolutionSpec l₂ := by
  unfold banResolutionSpec
  rw [any_perm _ h, maxOf_perm (h.filterMap id)]

theorem resolveBan_perm {l₁ l₂ : List (Option Int)} (h : l₁.Perm l₂) :
    resolveBan l₁ = resolveBan l₂ := by
  rw [resolveBan_eq_spec, resolveBan_eq_spec]
  exact banResolutionSpec_perm h

/-! ## Claims -/

/-- C1: ban resolution, used identically by `get_user_login_info` against
`userban` and by `get_ip_ban_info` against `ipban`: for every set of ban
rows matching the subject, the returned `ban_expiration` is `-1` if at
least one matching row has a NULL `expiration_date`, otherwise the largest
`UNIX_TIMESTAMP(expiration_date)` over the matching rows if any exist,
otherwise `0`; and the result does not depend on the insertion order of
the rows. -/
theorem C1_ban_resolution :
    (∀ (userban : List UserBanRow) (userId : Int),
      GetUserLoginInfoBanExpiration userban userId
        = banResolutionSpec
            ((userban.filter (fun b => b.userId == userId)).map (fun b => b.expiration)))
    ∧ (∀ (ipban : List IpBanRow) (ip : String),
      GetIpBanInfo ipban ip
        = banResolutionSpec
            ((ipban.filter (fun b => b.ip == ip)).map (fun b => b.expiration)))
    ∧ (∀ (t₁ t₂ : List UserBanRow) (userId : Int), t₁.Perm t₂ →
      GetUserLoginInfoBanExpiration t₁ userId = GetUserLoginInfoBanExpiration t₂ userId)
    ∧ (∀ (t₁ t₂ : List IpBanRow) (ip : String), t₁.Perm t₂ →
      GetIpBanInfo t₁ ip = GetIpBanInfo t₂ ip) := by
  refine ⟨?_, ?_, ?_, ?_⟩
  · intro userban userId
    exact resolveBan_eq_spec _
  · intro ipban ip
    exact resolveBan_eq_spec _
  · intro t₁ t₂ userId h
    exact resolveBan_perm ((h.filter _).map _)
  · intro t₁ t₂ ip h
    exact resolveBan_perm ((h.filter _).map _)

/-- Witness for C1: a permanent ban dominating a timed one resolves to
`-1` (and agrees with the spec function), and swapping the insertion order
of two timed bans does not change the result. -/
theorem C1_ban_resolution_witness :
    (GetUserLoginInfoBanExpiration [⟨1, some 2000000000⟩, ⟨1, none⟩] 1
      = banResolutionSpec
          ((([⟨1, some 2000000000⟩, ⟨1, none⟩] : List UserBanRow).filter
              (fun b => b.userId == 1)).map (fun b => b.expiration)))
    ∧ (GetUserLoginInfoBanExpiration [⟨2, some 1700000000⟩, ⟨2, some 1800000000⟩] 2
        = GetUserLoginInfoBanExpiration [⟨2, some 1800000000⟩, ⟨2, some 1700000000⟩] 2)
    ∧ (GetIpBanInfo [⟨"10.0.0.1", some 3⟩, ⟨"10.0.0.1", none⟩] "10.0.0.1"
        = GetIpBanInfo [⟨"10.0.0.1", none⟩, ⟨"10.0.0.1", some 3⟩] "10.0.0.1") :=
  ⟨C1_ban_resolution.1 [⟨1, some 2000000000⟩, ⟨1, none⟩] 1,
   C1_ban_resolution.2.2.1 _ _ 2
     (List.Perm.swap (⟨2, some 1800000000⟩ : UserBanRow) (⟨2, some 1700000000⟩ : UserBanRow) []),
   C1_ban_resolution.2.2.2 _ _ "10.0.0.1"
     (List.Perm.swap (⟨"10.0.0.1", none⟩ : IpBanRow) (⟨"10.0.0.1", some 3⟩ : IpBanRow) [])⟩

/-- C2 (code bug, evaluated at the failing input): `CreateUser` writes the
supplied name, password and 0/1 gender flag, but its `creation_ip`
condition is inverted — called with the non-empty ip `"1.2.3.4"` the built
statement carries no `creation_ip` assignment (the column stays at its
default), while called with the empty string it assigns
`creation_ip = ''`. -/
theorem C2_create_user_creation_ip_inverted :
    assignedValue (CreateUserStmt "alice" "H" true "1.2.3.4") "name"
        = some (.strLit "alice")
    ∧ assignedValue (CreateUserStmt "alice" "H" true "1.2.3.4") "password"
        = some (.strLit "H")
    ∧ assignedValue (CreateUserStmt "alice" "H" true "1.2.3.4") "is_male"
        = some (.intLit 1)
    ∧ assignedValue (CreateUserStmt "bob" "P" false "") "is_male"
        = some (.intLit 0)
    ∧ assignedValue (CreateUserStmt "alice" "H" true "1.2.3.4") "creation_ip" = none
    ∧ assignedValue (CreateUserStmt "bob" "P" false "") "creation_ip"
        = some (.strLit "") := by
  refine ⟨rfl, rfl, rfl, rfl, rfl, rfl⟩

/-- C3 (code bug, evaluated at the failing input): on the result of
`SELECT password, is_deleted FROM user WHERE id = 1` for a user row with
password `"H"`, the source's read `res->GetValue("user").AsString()` fails
with `logic_error("Column name not found.")` — the result has no column
named `user` — whereas reading the `password` column, as the claim states,
would yield `"H"`. -/
theorem C3_login_info_reads_wrong_column :
    getLoginPasswordHash (selectLoginResult "H" false)
        = .error (.logicError "Column name not found.")
    ∧ GetValueAsString (selectLoginResult "H" false) "password" = .ok "H" := by
  refine ⟨rfl, rfl⟩

/-- C4 (code bug, evaluated at the failing input): `GetUserPostLoginInfo 3`
does issue a single `SELECT` of the seven listed columns against the
`user` table, but its filter column is spelled `user_id`, not the primary
key `id` that every other `user`-table query in the source uses
(`GetUserLoginInfo`, the three `Update*` operations). -/
theorem C4_post_login_filters_wrong_column :
    (GetUserPostLoginInfoQuery 3).columns
        = ["is_male", "auth", "default_character", "rank", "rank_record",
           "points", "code"]
    ∧ (GetUserPostLoginInfoQuery 3).table = "user"
    ∧ (GetUserPostLoginInfoQuery 3).whereValue = 3
    ∧ (GetUserPostLoginInfoQuery 3).whereColumn = "user_id"
    ∧ (GetUserLoginInfoQuery 3).whereColumn = "id"
    ∧ UpdateUserLastLoginDateWhereColumn = "id"
    ∧ (GetUserPostLoginInfoQuery 3).whereColumn ≠ (GetUserLoginInfoQuery 3).whereColumn := by
  refine ⟨rfl, rfl, rfl, rfl, rfl, rfl, by decide⟩

/-- C5: `get_user_id(name)` returns the id of the user row whose `name`
column matches when such a row exists, returns `0` when no row matches,
and raises no failure in the no-row case (the result is an ordinary `0`,
not an error). -/
theorem C5_get_user_id :
    (∀ (users : List UserRow) (userName : String) (u : UserRow),
      users.filter (fun v => v.name == userName) = [u] →
      GetUserId users userName = .ok u.id)
    ∧ (∀ (users : List UserRow) (userName : String),
      users.filter (fun v => v.name == userName) = [] →
      GetUserId users userName = .ok 0) := by
  constructor
  · intro users userName u h
    simp [GetUserId, selectUserIdResult, mkMysqlResult, h,
      MysqlResult.GetRowCount, MysqlResult.GetValueFirst, MysqlResult.GetValueCol,
      MysqlResult.GetValueAt, MysqlValue.AsInt, Except.bind, bind, pure, Except.pure]
  · intro users userName h
    simp [GetUserId, selectUserIdResult, mkMysqlResult, h,
      MysqlResult.GetRowCount, Except.bind, bind, pure, Except.pure]

/-- Witness for C5: a matching row returns its id, an unknown name returns
`0` without failure. -/
theorem C5_get_user_id_witness :
    GetUserId [⟨1, "alice"⟩] "alice" = .ok (⟨1, "alice"⟩ : UserRow).id
    ∧ GetUserId [⟨1, "alice"⟩] "bob" = .ok 0 :=
  ⟨C5_get_user_id.1 [⟨1, "alice"⟩] "alice" ⟨1, "alice"⟩ (by decide),
   C5_get_user_id.2 [⟨1, "alice"⟩] "bob" (by decide)⟩

/-- C6: `create_user_ban(user_id, expiration)` and
`create_ip_ban(ip, expiration)` leave the inserted row's `expiration_date`
column NULL exactly when `expiration` is the sentinel `-1`, set it to
`FROM_UNIXTIME(expiration)` for every other value, and return the id of
the newly inserted ban row (exactly, for ids below `2 ^ 31`, where the
C++ `int` return type can represent them). -/
theorem C6_ban_insert_expiration :
    ∀ (userId banExpirationDate : Int) (ip : String) (newId : Nat),
      newId < 2 ^ 31 →
      storedExpiration (CreateUserBanStmt userId banExpirationDate)
          = (if banExpirationDate = -1 then none else some banExpirationDate)
      ∧ storedExpiration (CreateIpBanStmt ip banExpirationDate)
          = (if banExpirationDate = -1 then none else some banExpirationDate)
      ∧ insertReturnedId newId = (newId : Int) := by
  intro userId banExpirationDate ip newId hlt
  refine ⟨?_, ?_, ?_⟩
  · by_cases he : banExpirationDate = -1 <;>
      simp [CreateUserBanStmt, storedExpiration, assignedValue, he]
  · by_cases he : banExpirationDate = -1 <;>
      simp [CreateIpBanStmt, storedExpiration, assignedValue, he]
  · have e : insertReturnedId newId = toInt32 newId := rfl
    rw [e]
    unfold toInt32
    split <;> omega

/-- Witness for C6: both the sentinel `-1` (NULL expiration) and a timed
expiration, for both ban kinds, with a concrete generated id. -/
theorem C6_ban_insert_expiration_witness :
    (storedExpiration (CreateUserBanStmt 7 (-1)) = none
      ∧ storedExpiration (CreateIpBanStmt "1.2.3.4" (-1)) = none
      ∧ insertReturnedId 55 = 55)
    ∧ (storedExpiration (CreateUserBanStmt 7 2000000000) = some 2000000000
      ∧ storedExpiration (CreateIpBanStmt "8.8.8.8" 2000000000) = some 2000000000
      ∧ insertReturnedId 56 = 56) :=
  ⟨C6_ban_insert_expiration 7 (-1) "1.2.3.4" 55 (by norm_num),
   C6_ban_insert_expiration 7 2000000000 "8.8.8.8" 56 (by norm_num)⟩

/-- C7: for every failing data-access operation, the surfaced
`QueryException` carries both the offending statement text (retrievable
via `GetQuery` and present in `what()`) and the underlying cause string —
the message of the internally raised error, in particular the database's
error message wrapped by the executor's `runtime_error`. -/
theorem C7_query_failure_carries_statement_and_cause :
    ∀ (query : String) (ex : DbError),
      (surfaceFailure query ex).GetQuery = query
      ∧ (∃ a, (surfaceFailure query ex).what = a ++ query)
      ∧ (∃ a b, (surfaceFailure query ex).what = a ++ errorWhat ex ++ b)
      ∧ (∀ mysqlError : String,
          ∃ a b,
            (surfaceFailure query (.runtimeError (executorErrorMessage mysqlError))).what
              = a ++ mysqlError ++ b) := by
  intro q ex
  refine ⟨rfl, ⟨_, rfl⟩, ?_, ?_⟩
  · refine ⟨"An error occurred when processing a query: ",
      " The query string was: " ++ q, ?_⟩
    simp [surfaceFailure, QueryExceptionInit, QueryException.what, String.append_assoc]
  · intro m
    refine
      ⟨"An error occurred when processing a query: An error occurred when storing a result from a MySQL query: ",
      " The query string was: " ++ q, ?_⟩
    simp only [surfaceFailure, QueryExceptionInit, QueryException.what, errorWhat,
      executorErrorMessage, String.append_assoc]
    conv_lhs => rw [← String.append_assoc]
    rfl

/-- C8: the accessor shorthands agree with the two-argument accessor,
including on whether and how they fail: `value(col)` (by name or by
index) equals `value(0, col)`, and `value()` equals `value(0, 0)`. -/
theorem C8_get_value_shorthands :
    (∀ (α : Type) (r : MysqlResult α) (columnName : String),
      r.GetValueName columnName = r.GetValueAtName 0 columnName)
    ∧ (∀ (α : Type) (r : MysqlResult α) (columnIndex : Int),
      r.GetValueCol columnIndex = r.GetValueAt 0 columnIndex)
    ∧ (∀ (α : Type) (r : MysqlResult α), r.GetValueFirst = r.GetValueAt 0 0) :=
  ⟨fun _ _ _ => rfl, fun _ _ _ => rfl, fun _ _ => rfl⟩

/-- C9: reading the auto-generated id never fails: on the null result an
`INSERT` produces (`mysql_store_result` returns null), `GetAutoGeneratedId`
returns the stored id without raising, while `GetRowCount`, `GetValue` and
column lookup all raise the null-result `logic_error`; this is what lets
`CreateUser`, `CreateUserBan` and `CreateIpBan` read the generated id from
their `INSERT` results. -/
theorem C9_auto_generated_id_never_fails :
    ∀ (insertId : Nat),
      (mkMysqlResult insertId (none : Option (ResultSet Int))).isNull = true
      ∧ (mkMysqlResult insertId (none : Option (ResultSet Int))).GetAutoGeneratedId
          = toInt32 insertId
      ∧ (mkMysqlResult insertId (none : Option (ResultSet Int))).GetRowCount
          = .error (.logicError "Cannot retrieve the row count because the result is null.")
      ∧ (mkMysqlResult insertId (none : Option (ResultSet Int))).GetValueAt 0 0
          = .error (.logicError "Cannot retrieve a value because the result is null.")
      ∧ (mkMysqlResult insertId (none : Option (ResultSet Int))).GetValueName "id"
          = .error (.logicError
              "Cannot retrieve the name of a column because the result is null.")
      ∧ insertReturnedId insertId
          = (mkMysqlResult insertId (none : Option (ResultSet Int))).GetAutoGeneratedId :=
  fun _ => ⟨rfl, rfl, rfl, rfl, rfl, rfl⟩

/-- C10: the id returned by the three insert operations is the
database-assigned 64-bit unsigned insert id narrowed by the C++ `(int)`
cast — reduced modulo `2 ^ 32` and reinterpreted as signed — so ids at or
above `2 ^ 31` come back different from their true value, and ids in
`[2 ^ 31, 2 ^ 32)` come back negative. -/
theorem C10_insert_id_narrowed_to_int32 :
    ∀ (insertId : Nat), 2 ^ 31 ≤ insertId →
      insertReturnedId insertId = toInt32 insertId
      ∧ insertReturnedId insertId ≠ (insertId : Int)
      ∧ (insertId < 2 ^ 32 → insertReturnedId insertId < 0) := by
  intro u h
  have e : insertReturnedId u = toInt32 u := rfl
  have hlt : toInt32 u < 2 ^ 31 := by unfold toInt32; split <;> omega
  refine ⟨e, ?_, ?_⟩
  · rw [e]
    intro he
    rw [he] at hlt
    omega
  · intro hu
    rw [e]
    unfold toInt32
    split <;> omega

/-- Witness for C10: the first unrepresentable id, `2 ^ 31`, comes back
negative (as `-2 ^ 31`), not as its true value. -/
theorem C10_insert_id_narrowed_witness :
    insertReturnedId 2147483648 = toInt32 2147483648
    ∧ insertReturnedId 2147483648 ≠ ((2147483648 : Nat) : Int)
    ∧ (2147483648 < 2 ^ 32 → insertReturnedId 2147483648 < 0) :=
  C10_insert_id_narrowed_to_int32 2147483648 (by norm_num)

end SpDb
